import Mathlib

/-!
Verification of the Travel_Guide repository (src/main.py and src/server.py).

The development shallowly embeds the pure logic of both front ends:
the prompt builder, the filename sanitizer, the persistence layer, the
CLI main control flow and the HTTP POST handler for /api/generate.
Python strings are Lean strings; Python ints are Lean Int; machine side
effects (network call, file write, process exit) are made explicit as
fields of outcome records.  Apostrophes inside string literals are
written with the escape \x27.
-/

set_option maxRecDepth 40000

/-! ### Character and string helpers shared by both files -/

/-- Membership of a code point in a sorted list of inclusive code
point ranges, with early exit below the next range. -/
def isInRanges (n : Nat) : List (Nat × Nat) → Bool
  | [] => false
  | (lo, hi) :: rs => if n < lo then false else if n ≤ hi then true else isInRanges n rs

/-- The inclusive code point ranges on which Python str.isalnum is
true (Unicode 14.0: the alphabetic, decimal, digit and numeric
characters), listed in increasing order. -/
def pyAlnumRanges : List (Nat × Nat) := [
  (48, 57), (65, 90), (97, 122), (170, 170), (178, 179), (181, 181),
  (185, 186), (188, 190), (192, 214), (216, 246), (248, 705), (710, 721),
  (736, 740), (748, 748), (750, 750), (880, 884), (886, 887), (890, 893),
  (895, 895), (902, 902), (904, 906), (908, 908), (910, 929), (931, 1013),
  (1015, 1153), (1162, 1327), (1329, 1366), (1369, 1369), (1376, 1416), (1488, 1514),
  (1519, 1522), (1568, 1610), (1632, 1641), (1646, 1647), (1649, 1747), (1749, 1749),
  (1765, 1766), (1774, 1788), (1791, 1791), (1808, 1808), (1810, 1839), (1869, 1957),
  (1969, 1969), (1984, 2026), (2036, 2037), (2042, 2042), (2048, 2069), (2074, 2074),
  (2084, 2084), (2088, 2088), (2112, 2136), (2144, 2154), (2160, 2183), (2185, 2190),
  (2208, 2249), (2308, 2361), (2365, 2365), (2384, 2384), (2392, 2401), (2406, 2415),
  (2417, 2432), (2437, 2444), (2447, 2448), (2451, 2472), (2474, 2480), (2482, 2482),
  (2486, 2489), (2493, 2493), (2510, 2510), (2524, 2525), (2527, 2529), (2534, 2545),
  (2548, 2553), (2556, 2556), (2565, 2570), (2575, 2576), (2579, 2600), (2602, 2608),
  (2610, 2611), (2613, 2614), (2616, 2617), (2649, 2652), (2654, 2654), (2662, 2671),
  (2674, 2676), (2693, 2701), (2703, 2705), (2707, 2728), (2730, 2736), (2738, 2739),
  (2741, 2745), (2749, 2749), (2768, 2768), (2784, 2785), (2790, 2799), (2809, 2809),
  (2821, 2828), (2831, 2832), (2835, 2856), (2858, 2864), (2866, 2867), (2869, 2873),
  (2877, 2877), (2908, 2909), (2911, 2913), (2918, 2927), (2929, 2935), (2947, 2947),
  (2949, 2954), (2958, 2960), (2962, 2965), (2969, 2970), (2972, 2972), (2974, 2975),
  (2979, 2980), (2984, 2986), (2990, 3001), (3024, 3024), (3046, 3058), (3077, 3084),
  (3086, 3088), (3090, 3112), (3114, 3129), (3133, 3133), (3160, 3162), (3165, 3165),
  (3168, 3169), (3174, 3183), (3192, 3198), (3200, 3200), (3205, 3212), (3214, 3216),
  (3218, 3240), (3242, 3251), (3253, 3257), (3261, 3261), (3293, 3294), (3296, 3297),
  (3302, 3311), (3313, 3314), (3332, 3340), (3342, 3344), (3346, 3386), (3389, 3389),
  (3406, 3406), (3412, 3414), (3416, 3425), (3430, 3448), (3450, 3455), (3461, 3478),
  (3482, 3505), (3507, 3515), (3517, 3517), (3520, 3526), (3558, 3567), (3585, 3632),
  (3634, 3635), (3648, 3654), (3664, 3673), (3713, 3714), (3716, 3716), (3718, 3722),
  (3724, 3747), (3749, 3749), (3751, 3760), (3762, 3763), (3773, 3773), (3776, 3780),
  (3782, 3782), (3792, 3801), (3804, 3807), (3840, 3840), (3872, 3891), (3904, 3911),
  (3913, 3948), (3976, 3980), (4096, 4138), (4159, 4169), (4176, 4181), (4186, 4189),
  (4193, 4193), (4197, 4198), (4206, 4208), (4213, 4225), (4238, 4238), (4240, 4249),
  (4256, 4293), (4295, 4295), (4301, 4301), (4304, 4346), (4348, 4680), (4682, 4685),
  (4688, 4694), (4696, 4696), (4698, 4701), (4704, 4744), (4746, 4749), (4752, 4784),
  (4786, 4789), (4792, 4798), (4800, 4800), (4802, 4805), (4808, 4822), (4824, 4880),
  (4882, 4885), (4888, 4954), (4969, 4988), (4992, 5007), (5024, 5109), (5112, 5117),
  (5121, 5740), (5743, 5759), (5761, 5786), (5792, 5866), (5870, 5880), (5888, 5905),
  (5919, 5937), (5952, 5969), (5984, 5996), (5998, 6000), (6016, 6067), (6103, 6103),
  (6108, 6108), (6112, 6121), (6128, 6137), (6160, 6169), (6176, 6264), (6272, 6276),
  (6279, 6312), (6314, 6314), (6320, 6389), (6400, 6430), (6470, 6509), (6512, 6516),
  (6528, 6571), (6576, 6601), (6608, 6618), (6656, 6678), (6688, 6740), (6784, 6793),
  (6800, 6809), (6823, 6823), (6917, 6963), (6981, 6988), (6992, 7001), (7043, 7072),
  (7086, 7141), (7168, 7203), (7232, 7241), (7245, 7293), (7296, 7304), (7312, 7354),
  (7357, 7359), (7401, 7404), (7406, 7411), (7413, 7414), (7418, 7418), (7424, 7615),
  (7680, 7957), (7960, 7965), (7968, 8005), (8008, 8013), (8016, 8023), (8025, 8025),
  (8027, 8027), (8029, 8029), (8031, 8061), (8064, 8116), (8118, 8124), (8126, 8126),
  (8130, 8132), (8134, 8140), (8144, 8147), (8150, 8155), (8160, 8172), (8178, 8180),
  (8182, 8188), (8304, 8305), (8308, 8313), (8319, 8329), (8336, 8348), (8450, 8450),
  (8455, 8455), (8458, 8467), (8469, 8469), (8473, 8477), (8484, 8484), (8486, 8486),
  (8488, 8488), (8490, 8493), (8495, 8505), (8508, 8511), (8517, 8521), (8526, 8526),
  (8528, 8585), (9312, 9371), (9450, 9471), (10102, 10131), (11264, 11492), (11499, 11502),
  (11506, 11507), (11517, 11517), (11520, 11557), (11559, 11559), (11565, 11565), (11568, 11623),
  (11631, 11631), (11648, 11670), (11680, 11686), (11688, 11694), (11696, 11702), (11704, 11710),
  (11712, 11718), (11720, 11726), (11728, 11734), (11736, 11742), (11823, 11823), (12293, 12295),
  (12321, 12329), (12337, 12341), (12344, 12348), (12353, 12438), (12445, 12447), (12449, 12538),
  (12540, 12543), (12549, 12591), (12593, 12686), (12690, 12693), (12704, 12735), (12784, 12799),
  (12832, 12841), (12872, 12879), (12881, 12895), (12928, 12937), (12977, 12991), (13312, 19903),
  (19968, 42124), (42192, 42237), (42240, 42508), (42512, 42539), (42560, 42606), (42623, 42653),
  (42656, 42735), (42775, 42783), (42786, 42888), (42891, 42954), (42960, 42961), (42963, 42963),
  (42965, 42969), (42994, 43009), (43011, 43013), (43015, 43018), (43020, 43042), (43056, 43061),
  (43072, 43123), (43138, 43187), (43216, 43225), (43250, 43255), (43259, 43259), (43261, 43262),
  (43264, 43301), (43312, 43334), (43360, 43388), (43396, 43442), (43471, 43481), (43488, 43492),
  (43494, 43518), (43520, 43560), (43584, 43586), (43588, 43595), (43600, 43609), (43616, 43638),
  (43642, 43642), (43646, 43695), (43697, 43697), (43701, 43702), (43705, 43709), (43712, 43712),
  (43714, 43714), (43739, 43741), (43744, 43754), (43762, 43764), (43777, 43782), (43785, 43790),
  (43793, 43798), (43808, 43814), (43816, 43822), (43824, 43866), (43868, 43881), (43888, 44002),
  (44016, 44025), (44032, 55203), (55216, 55238), (55243, 55291), (63744, 64109), (64112, 64217),
  (64256, 64262), (64275, 64279), (64285, 64285), (64287, 64296), (64298, 64310), (64312, 64316),
  (64318, 64318), (64320, 64321), (64323, 64324), (64326, 64433), (64467, 64829), (64848, 64911),
  (64914, 64967), (65008, 65019), (65136, 65140), (65142, 65276), (65296, 65305), (65313, 65338),
  (65345, 65370), (65382, 65470), (65474, 65479), (65482, 65487), (65490, 65495), (65498, 65500),
  (65536, 65547), (65549, 65574), (65576, 65594), (65596, 65597), (65599, 65613), (65616, 65629),
  (65664, 65786), (65799, 65843), (65856, 65912), (65930, 65931), (66176, 66204), (66208, 66256),
  (66273, 66299), (66304, 66339), (66349, 66378), (66384, 66421), (66432, 66461), (66464, 66499),
  (66504, 66511), (66513, 66517), (66560, 66717), (66720, 66729), (66736, 66771), (66776, 66811),
  (66816, 66855), (66864, 66915), (66928, 66938), (66940, 66954), (66956, 66962), (66964, 66965),
  (66967, 66977), (66979, 66993), (66995, 67001), (67003, 67004), (67072, 67382), (67392, 67413),
  (67424, 67431), (67456, 67461), (67463, 67504), (67506, 67514), (67584, 67589), (67592, 67592),
  (67594, 67637), (67639, 67640), (67644, 67644), (67647, 67669), (67672, 67702), (67705, 67742),
  (67751, 67759), (67808, 67826), (67828, 67829), (67835, 67867), (67872, 67897), (67968, 68023),
  (68028, 68047), (68050, 68096), (68112, 68115), (68117, 68119), (68121, 68149), (68160, 68168),
  (68192, 68222), (68224, 68255), (68288, 68295), (68297, 68324), (68331, 68335), (68352, 68405),
  (68416, 68437), (68440, 68466), (68472, 68497), (68521, 68527), (68608, 68680), (68736, 68786),
  (68800, 68850), (68858, 68899), (68912, 68921), (69216, 69246), (69248, 69289), (69296, 69297),
  (69376, 69415), (69424, 69445), (69457, 69460), (69488, 69505), (69552, 69579), (69600, 69622),
  (69635, 69687), (69714, 69743), (69745, 69746), (69749, 69749), (69763, 69807), (69840, 69864),
  (69872, 69881), (69891, 69926), (69942, 69951), (69956, 69956), (69959, 69959), (69968, 70002),
  (70006, 70006), (70019, 70066), (70081, 70084), (70096, 70106), (70108, 70108), (70113, 70132),
  (70144, 70161), (70163, 70187), (70272, 70278), (70280, 70280), (70282, 70285), (70287, 70301),
  (70303, 70312), (70320, 70366), (70384, 70393), (70405, 70412), (70415, 70416), (70419, 70440),
  (70442, 70448), (70450, 70451), (70453, 70457), (70461, 70461), (70480, 70480), (70493, 70497),
  (70656, 70708), (70727, 70730), (70736, 70745), (70751, 70753), (70784, 70831), (70852, 70853),
  (70855, 70855), (70864, 70873), (71040, 71086), (71128, 71131), (71168, 71215), (71236, 71236),
  (71248, 71257), (71296, 71338), (71352, 71352), (71360, 71369), (71424, 71450), (71472, 71483),
  (71488, 71494), (71680, 71723), (71840, 71922), (71935, 71942), (71945, 71945), (71948, 71955),
  (71957, 71958), (71960, 71983), (71999, 71999), (72001, 72001), (72016, 72025), (72096, 72103),
  (72106, 72144), (72161, 72161), (72163, 72163), (72192, 72192), (72203, 72242), (72250, 72250),
  (72272, 72272), (72284, 72329), (72349, 72349), (72368, 72440), (72704, 72712), (72714, 72750),
  (72768, 72768), (72784, 72812), (72818, 72847), (72960, 72966), (72968, 72969), (72971, 73008),
  (73030, 73030), (73040, 73049), (73056, 73061), (73063, 73064), (73066, 73097), (73112, 73112),
  (73120, 73129), (73440, 73458), (73648, 73648), (73664, 73684), (73728, 74649), (74752, 74862),
  (74880, 75075), (77712, 77808), (77824, 78894), (82944, 83526), (92160, 92728), (92736, 92766),
  (92768, 92777), (92784, 92862), (92864, 92873), (92880, 92909), (92928, 92975), (92992, 92995),
  (93008, 93017), (93019, 93025), (93027, 93047), (93053, 93071), (93760, 93846), (93952, 94026),
  (94032, 94032), (94099, 94111), (94176, 94177), (94179, 94179), (94208, 100343), (100352, 101589),
  (101632, 101640), (110576, 110579), (110581, 110587), (110589, 110590), (110592, 110882), (110928, 110930),
  (110948, 110951), (110960, 111355), (113664, 113770), (113776, 113788), (113792, 113800), (113808, 113817),
  (119520, 119539), (119648, 119672), (119808, 119892), (119894, 119964), (119966, 119967), (119970, 119970),
  (119973, 119974), (119977, 119980), (119982, 119993), (119995, 119995), (119997, 120003), (120005, 120069),
  (120071, 120074), (120077, 120084), (120086, 120092), (120094, 120121), (120123, 120126), (120128, 120132),
  (120134, 120134), (120138, 120144), (120146, 120485), (120488, 120512), (120514, 120538), (120540, 120570),
  (120572, 120596), (120598, 120628), (120630, 120654), (120656, 120686), (120688, 120712), (120714, 120744),
  (120746, 120770), (120772, 120779), (120782, 120831), (122624, 122654), (123136, 123180), (123191, 123197),
  (123200, 123209), (123214, 123214), (123536, 123565), (123584, 123627), (123632, 123641), (124896, 124902),
  (124904, 124907), (124909, 124910), (124912, 124926), (124928, 125124), (125127, 125135), (125184, 125251),
  (125259, 125259), (125264, 125273), (126065, 126123), (126125, 126127), (126129, 126132), (126209, 126253),
  (126255, 126269), (126464, 126467), (126469, 126495), (126497, 126498), (126500, 126500), (126503, 126503),
  (126505, 126514), (126516, 126519), (126521, 126521), (126523, 126523), (126530, 126530), (126535, 126535),
  (126537, 126537), (126539, 126539), (126541, 126543), (126545, 126546), (126548, 126548), (126551, 126551),
  (126553, 126553), (126555, 126555), (126557, 126557), (126559, 126559), (126561, 126562), (126564, 126564),
  (126567, 126570), (126572, 126578), (126580, 126583), (126585, 126588), (126590, 126590), (126592, 126601),
  (126603, 126619), (126625, 126627), (126629, 126633), (126635, 126651), (127232, 127244), (130032, 130041),
  (131072, 173791), (173824, 177976), (177984, 178205), (178208, 183969), (183984, 191456), (194560, 195101),
  (196608, 201546)]

/-- Models Python str.isalnum: true exactly on the Unicode
alphanumeric code points. -/
def pyIsAlnum (c : Char) : Bool := isInRanges c.toNat pyAlnumRanges

/-- The keep-predicate of sanitize_filename (src/main.py line 80 and
src/server.py line 24): Unicode alphanumeric, space, hyphen or
underscore. -/
def keepChar (c : Char) : Bool := pyIsAlnum c || c == ' ' || c == '-' || c == '_'

def isWs (c : Char) : Bool := c.isWhitespace

/-- Python str.strip with no arguments, on a character list. -/
def pyStrip (l : List Char) : List Char :=
  ((l.dropWhile isWs).reverse.dropWhile isWs).reverse

/-- Python str.strip with no arguments. -/
def pyStripStr (s : String) : String := String.mk (pyStrip s.data)

/-- Worker for Python str.split: walk the characters keeping the
(reversed) current word in the accumulator, emitting it at each
whitespace run and at the end. -/
def pySplitAux : List Char → List Char → List (List Char)
  | [], acc => if acc = [] then [] else [acc.reverse]
  | c :: cs, acc =>
    if isWs c then
      if acc = [] then pySplitAux cs [] else acc.reverse :: pySplitAux cs []
    else pySplitAux cs (c :: acc)

/-- Python str.split with no arguments: split on runs of whitespace,
discarding empty pieces. -/
def pySplit (l : List Char) : List (List Char) := pySplitAux l []

/-- Python separator.join for the separator consisting of one underscore. -/
def joinUnderscore : List (List Char) → List Char
  | [] => []
  | [w] => w
  | w :: ws => w ++ '_' :: joinUnderscore ws

/-- sanitize_filename on character lists: keep the whitelisted
characters, strip, split on whitespace, join with underscores, truncate
to 100, and fall back to the constant name when empty
(src/main.py lines 78-82; src/server.py lines 23-26 are identical). -/
def sanitizeChars (name : List Char) : List Char :=
  let safe := name.filter keepChar
  let joined := joinUnderscore (pySplit (pyStrip safe))
  if joined = [] then ("travel_guide").data else joined.take 100

/-- sanitize_filename from src/main.py lines 78-82 (src/server.py
lines 23-26 define the same function verbatim). -/
def sanitize_filename (name : String) : String := String.mk (sanitizeChars name.data)

/-! ### Python str(int) -/

/-- The decimal digit characters, as produced by Python str on an int. -/
def digitChar (n : Nat) : Char :=
  match n with
  | 0 => '0' | 1 => '1' | 2 => '2' | 3 => '3' | 4 => '4'
  | 5 => '5' | 6 => '6' | 7 => '7' | 8 => '8' | _ => '9'

/-- Worker for the decimal digits of a natural number, structurally
recursive on a fuel argument that always suffices (n / 10 shrinks at
every step, and the fuel starts at n + 1). -/
def natCharsAux : Nat → Nat → List Char
  | 0, _ => []
  | fuel + 1, n =>
    if n < 10 then [digitChar n]
    else natCharsAux fuel (n / 10) ++ [digitChar (n % 10)]

/-- Decimal digits of a natural number, most significant first. -/
def natChars (n : Nat) : List Char := natCharsAux (n + 1) n

/-- Python str applied to an int, as a character list. -/
def intChars : Int → List Char
  | Int.ofNat n => natChars n
  | Int.negSucc n => '-' :: natChars (n + 1)

/-- Python str applied to an int (the formatting used by the f-string
interpolations of build_prompt). -/
def intStr (i : Int) : String := String.mk (intChars i)

/-! ### Python int() parsing (used by argparse type=int and by the
HTTP handler through int(...)) -/

def digitVal (c : Char) : Nat := c.toNat - 48

/-- Parse the remaining digits of a decimal literal, allowing single
underscores between digits as Python int() does. -/
def pyDigitsAux : Nat → List Char → Option Nat
  | acc, [] => some acc
  | acc, c :: cs =>
    if c.isDigit then pyDigitsAux (acc * 10 + digitVal c) cs
    else if c = '_' then
      match cs with
      | [] => none
      | d :: rest => if d.isDigit then pyDigitsAux (acc * 10 + digitVal d) rest else none
    else none

/-- Parse a nonempty run of decimal digits (with Python underscore
grouping); none on any other input. -/
def pyDigits : List Char → Option Nat
  | [] => none
  | c :: cs => if c.isDigit then pyDigitsAux (digitVal c) cs else none

/-- Python int(s) on a string: strip whitespace, optional sign, decimal
digits; none models a raised ValueError. -/
def pyIntOfString (s : String) : Option Int :=
  match pyStrip s.data with
  | '+' :: rest => Option.map (fun n => (n : Int)) (pyDigits rest)
  | '-' :: rest => Option.map (fun n => -(n : Int)) (pyDigits rest)
  | l => Option.map (fun n => (n : Int)) (pyDigits l)

/-! ### JSON values as the Python objects returned by json.loads.
JSON numbers are modelled as integers (the claims under study only
concern integer and non-numeric inputs). -/

inductive JVal where
  | null : JVal
  | bool : Bool → JVal
  | int : Int → JVal
  | str : String → JVal
  | arr : List JVal → JVal
  | obj : List (String × JVal) → JVal

/-- Python truthiness of a json.loads value. -/
def truthy : JVal → Bool
  | JVal.null => false
  | JVal.bool b => b
  | JVal.int n => n != 0
  | JVal.str s => s != ""
  | JVal.arr l => !l.isEmpty
  | JVal.obj l => !l.isEmpty

/-- Python int(v) on a json.loads value; none models a raised
TypeError or ValueError. -/
def pyInt : JVal → Option Int
  | JVal.int n => some n
  | JVal.bool b => some (if b then 1 else 0)
  | JVal.str s => pyIntOfString s
  | _ => none

/-- data.get(k): dictionary lookup, with a missing key giving Python
None, which the handler treats exactly like JSON null. -/
def jGet (body : List (String × JVal)) (k : String) : JVal :=
  match List.lookup k body with
  | some v => v
  | none => JVal.null

/-! ### The prompt template of build_prompt.

build_prompt is defined verbatim in src/main.py lines 30-75 and
src/server.py lines 29-66 (the two definitions are identical).  The
f-string is the concatenation of the following fixed segments with the
interpolated values, in source order. -/

def seg0 : String := "\nYou are an expert travel planner. Generate a complete, accurate, and helpful travel guide in clear Markdown for the destination: "

def seg1 : String := ".\n\nOutput structure (use Markdown headings and bullet lists; keep it concise but complete):\n\n1. Title: \"Rupam\x27s Travel Guide: "

def seg2 : String := "\"\n2. One-paragraph overview\n3. Best time to visit: months, weather patterns, crowd levels\n4. Foreigner visit rate: qualitative plus rough figures or indexes when commonly known; else a careful qualitative estimate\n5. Approximate costs in "

def seg3 : String := ":\n   - Daily budget ranges (shoestring / mid-range / comfortable)\n   - Typical costs: accommodation per night, meals, local transport, attractions\n   - Example total for "

def seg4 : String := " days\n6. Best hotels in the area: 3-6 options across budget/mid-range/luxury with rough price range in "

def segPreMonth : String := "; include neighborhood context; if widely-known, add an official site or aggregator keyword (no live browsing)\n7. Best local foods: 6-10 iconic dishes/snacks/drinks with one-line descriptions\n8. Month-wise precautions: cover all 12 months with concise bullets (weather, closures, festivals, health, clothing). "

def segPostMonth : String := "\n9. Itinerary for "

def seg6a : String := " days: for each day, outline morning/afternoon/evening with 2-3 attraction ideas, approximate visit durations, transit suggestions, timing tips, and alternatives for rain/peak heat\n10. Practical tips: safety, payments, SIM/internet, etiquette, local transport passes, tipping norms, scams to avoid\n\n"

def seg6b : String := "General guidance:\n- If specific facts are uncertain, label them as estimates and provide typical ranges. Do not fabricate precise numbers.\n- Keep suggestions family-friendly and culturally sensitive.\n- Avoid promises; use cautious language when needed.\n- Use readable Markdown with headings, bullet points, and short paragraphs.\n- Do not include any system or meta-instructions in the final answer.\n"

/-- The template text between the second days interpolation and the
budget line (sections 9 to the end of the general guidance). -/
def seg6 : String := seg6a ++ seg6b

def segEnd : String := "\n"

/-! Finer subdivisions of some segments, used to locate needles that
straddle an interpolation boundary. -/

/-- seg1 up to the opening quote of the title. -/
def seg1head : String := ".\n\nOutput structure (use Markdown headings and bullet lists; keep it concise but complete):\n\n1. Title: \""

/-- The constant title prefix inside seg1. -/
def rtg : String := "Rupam\x27s Travel Guide: "

/-- segPostMonth up to the itinerary heading text. -/
def spHead : String := "\n9. "

/-- The itinerary heading text inside segPostMonth. -/
def spItin : String := "Itinerary for "

/-- The word (with leading space) that follows the second days
interpolation at the start of seg6a. -/
def sDays : String := " days"

/-- seg6a after the leading days word. -/
def seg6aTail : String := ": for each day, outline morning/afternoon/evening with 2-3 attraction ideas, approximate visit durations, transit suggestions, timing tips, and alternatives for rain/peak heat\n10. Practical tips: safety, payments, SIM/internet, etiquette, local transport passes, tipping norms, scams to avoid\n\n"

/-- The fixed text of the month emphasis clause before the month. -/
def mseg0 : String := "If the user-specified month is provided, highlight guidance for "

/-- The fixed text of the month emphasis clause after the month. -/
def mseg1 : String := " explicitly."

/-- The month emphasis clause interpolating a (truthy) month value. -/
def monthClause (m : String) : String := mseg0 ++ m ++ mseg1

/-- specific_month_line from build_prompt: the clause when month is
truthy (a present, nonempty string), empty otherwise. -/
def specific_month_line (month : Option String) : String :=
  match month with
  | none => ""
  | some m => if m = "" then "" else monthClause m

/-- The fixed text of the budget clause before the budget value. -/
def bseg0 : String := "Assume a daily budget of around "

/-- The single space between the budget value and the currency. -/
def bseg1 : String := " "

/-- The fixed text of the budget clause after the currency. -/
def bseg2 : String := " and adjust recommendations accordingly."

/-- The budget clause interpolating a budget value and the currency. -/
def budgetClause (b : Int) (currency : String) : String :=
  bseg0 ++ intStr b ++ bseg1 ++ currency ++ bseg2

/-- budget_line from build_prompt: the clause when daily_budget is not
None (the test is `is not None`, so 0 gets a clause), empty
otherwise. -/
def budget_line (daily_budget : Option Int) (currency : String) : String :=
  match daily_budget with
  | none => ""
  | some b => budgetClause b currency

/-- build_prompt from src/main.py lines 30-75 and src/server.py lines
29-66: the f-string template with destination, days, currency, the
month line and the budget line interpolated in source order. -/
def build_prompt (destination : String) (days : Int) (month : Option String)
    (currency : String) (daily_budget : Option Int) : String :=
  seg0 ++ destination ++ seg1 ++ destination ++ seg2 ++ currency ++ seg3 ++
    intStr days ++ seg4 ++ currency ++ segPreMonth ++ specific_month_line month ++
    segPostMonth ++ intStr days ++ seg6 ++ budget_line daily_budget currency ++ segEnd

/-- Substring containment of Lean strings, via list infixes. -/
def Contains (needle haystack : String) : Prop := needle.data <:+: haystack.data

instance (n h : String) : Decidable (Contains n h) :=
  inferInstanceAs (Decidable (n.data <:+: h.data))

/-! ### Filesystem model.

A directory is a list of (path, content) pairs; writing replaces the
content at an existing path and appends a new entry otherwise, which is
the observable behavior of Path.write_text. -/

def writeFs : List (String × String) → String → String → List (String × String)
  | [], p, c => [(p, c)]
  | (q, d) :: fs, p, c => if q = p then (p, c) :: fs else (q, d) :: writeFs fs p c

def fsGet : List (String × String) → String → Option String
  | [], _ => none
  | (p, c) :: fs, q => if p = q then some c else fsGet fs q

def fsCount (fs : List (String × String)) (p : String) : Nat :=
  (fs.filter (fun e => e.1 == p)).length

/-- The report path derived from a destination: both front ends write
reports/<sanitized>.md (src/main.py lines 85-91, src/server.py lines
141-143). -/
def reportPath (destination : String) : String :=
  "reports/" ++ sanitize_filename destination ++ ".md"

/-- save_output_markdown from src/main.py lines 85-91: write the text
at the sanitized path, returning the new directory state and the
path. -/
def save_output_markdown (fs : List (String × String)) (destination content : String) :
    List (String × String) × String :=
  let path := reportPath destination
  (writeFs fs path content, path)

/-! ### Environment and the CLI front end (src/main.py main) -/

structure GenEnv where
  google_api_key : Option String
  model_env : Option String

/-- get_env_variable from src/main.py lines 25-27: the value when it
is a nonempty, non-whitespace string, None otherwise. -/
def get_env_variable (value : Option String) : Option String :=
  match value with
  | none => none
  | some s => if s ≠ "" ∧ pyStripStr s ≠ "" then some s else none

/-- Python `a or b` for an optional string a: b when a is None or
empty. -/
def pyOrStr (a : Option String) (b : String) : String :=
  match a with
  | none => b
  | some s => if s = "" then b else s

/-- Model resolution in the CLI (src/main.py lines 172-176):
args.model or MODEL env or the hardcoded default. -/
def resolveModel (argModel : Option String) (envModel : Option String) : String :=
  pyOrStr argModel (pyOrStr (get_env_variable envModel) ("gemini-1.5-flash"))

structure CliArgs where
  destination : String
  days : Int
  month : Option String
  currency : String
  budget : Option Int
  model : Option String

/-- The effective day count the CLI passes to the generator:
max(1, args.days) from src/main.py line 190. -/
def cliEffectiveDays (days : Int) : Int := max 1 days

/-- Observable outcome of one CLI run: exit code, both output streams,
how many generation (network) attempts were made, which prompt was
sent, and the resulting reports directory. -/
structure CliOutcome where
  exitCode : Nat
  stderrLines : List String
  stdoutLines : List String
  genAttempts : Nat
  promptSent : Option String
  files : List (String × String)

/-- main from src/main.py lines 167-202, after successful argument
parsing.  The generation network call is an oracle `gen` giving either
the text returned by generate_travel_guide or the message of the
exception it raised. -/
def main_run (env : GenEnv) (args : CliArgs) (gen : Except String String)
    (fs : List (String × String)) : CliOutcome :=
  match get_env_variable env.google_api_key with
  | none =>
    { exitCode := 2
      stderrLines := ["ERROR: GOOGLE_API_KEY not set. Add it to .env or environment."]
      stdoutLines := []
      genAttempts := 0
      promptSent := none
      files := fs }
  | some _ =>
    let prompt := build_prompt args.destination (cliEffectiveDays args.days) args.month
      args.currency args.budget
    match gen with
    | Except.error exc =>
      { exitCode := 1
        stderrLines := ["ERROR: Failed to generate guide: " ++ exc]
        stdoutLines := []
        genAttempts := 1
        promptSent := some prompt
        files := fs }
    | Except.ok content =>
      let saved := save_output_markdown fs args.destination content
      { exitCode := 0
        stderrLines := []
        stdoutLines := [content, "\nSaved to: " ++ saved.2]
        genAttempts := 1
        promptSent := some prompt
        files := saved.1 }

/-! ### The argparse coercion of --days and --budget.

argparse applies the declared type callable (Python int) to the flag
token; a ValueError aborts the invocation with a usage error and exit
status 2, and an omitted flag yields the declared default.  The outer
none below models that abort: the request fails instead of receiving a
value. -/

def cliDaysArg (tok : Option String) : Option Int :=
  match tok with
  | none => some 4
  | some s => pyIntOfString s

def cliBudgetArg (tok : Option String) : Option (Option Int) :=
  match tok with
  | none => some none
  | some s => Option.map some (pyIntOfString s)

/-! ### The HTTP front end (src/server.py GuideHandler.do_POST) -/

/-- days coercion of the handler (src/server.py lines 96-100):
`data.get("days") or 4`, then int() with fallback 4, then
max(1, days). -/
def httpDays (body : List (String × JVal)) : Int :=
  let dv := jGet body ("days")
  let dv2 := if truthy dv then dv else JVal.int 4
  match pyInt dv2 with
  | some n => max 1 n
  | none => 4

/-- budget coercion of the handler (src/server.py lines 105-109):
None stays None, otherwise int() with fallback None. -/
def httpBudget (body : List (String × JVal)) : Option Int :=
  match jGet body ("budget") with
  | JVal.null => none
  | v => pyInt v

/-- `(v or dflt).strip()` for a json value: the default when v is
falsy, the stripped string when v is a truthy string, and none (an
unhandled AttributeError) when v is truthy but not a string. -/
def pyOrStrStrip (v : JVal) (dflt : String) : Option String :=
  if truthy v then
    match v with
    | JVal.str s => some (pyStripStr s)
    | _ => none
  else some (pyStripStr dflt)

/-- `(data.get("model") or os.getenv("MODEL") or "gemini-1.5-flash").strip()`
(src/server.py line 111). -/
def modelOfBody (v : JVal) (envModel : Option String) : Option String :=
  if truthy v then
    match v with
    | JVal.str s => some (pyStripStr s)
    | _ => none
  else some (pyStripStr (pyOrStr envModel ("gemini-1.5-flash")))

/-- Observable outcome of one POST /api/generate request. -/
structure HttpOutcome where
  status : Nat
  ok : Bool
  error : Option String
  markdown : Option String
  genAttempts : Nat
  promptSent : Option String
  files : List (String × String)

/-- GuideHandler.do_POST on /api/generate (src/server.py lines 81-145)
after the body has been read and parsed as a JSON object.  The result
is none when the handler would raise an unhandled exception (a truthy
non-string where a string is expected), which no claim exercises. -/
def do_POST (body : List (String × JVal)) (env : GenEnv) (gen : Except String String)
    (fs : List (String × String)) : Option HttpOutcome :=
  match pyOrStrStrip (jGet body ("destination")) ("") with
  | none => none
  | some destination =>
    if destination = "" then
      some { status := 400, ok := false
             error := some ("\x27destination\x27 is required")
             markdown := none, genAttempts := 0, promptSent := none, files := fs }
    else
      let days := httpDays body
      match pyOrStrStrip (jGet body ("month")) ("") with
      | none => none
      | some m0 =>
        let month := if m0 = "" then none else some m0
        match pyOrStrStrip (jGet body ("currency")) ("INR") with
        | none => none
        | some c0 =>
          let currency := if c0 = "" then "INR" else c0
          let daily_budget := httpBudget body
          match modelOfBody (jGet body ("model")) env.model_env with
          | none => none
          | some _model =>
            let keyOk := match env.google_api_key with
              | none => false
              | some k => k ≠ ""
            if keyOk then
              let prompt := build_prompt destination days month currency daily_budget
              match gen with
              | Except.error e =>
                some { status := 500, ok := false
                       error := some ("Failed to generate: " ++ e)
                       markdown := none, genAttempts := 1
                       promptSent := some prompt, files := fs }
              | Except.ok t =>
                let content := pyStripStr t
                some { status := 200, ok := true, error := none
                       markdown := some content, genAttempts := 1
                       promptSent := some prompt
                       files := writeFs fs (reportPath destination) content }
            else
              some { status := 500, ok := false
                     error := some ("GOOGLE_API_KEY not set")
                     markdown := none, genAttempts := 0, promptSent := none, files := fs }

/-! ### Markers and straddle-safety predicates for the containment
arguments about build_prompt.

A marker is a short constant substring that occurs in one optional
clause of the template and nowhere else.  To show a marker is absent
from a whole prompt we decompose the prompt into its segments: an
occurrence must lie inside a single piece or straddle a boundary, and
the predicates below make the boundary cases decidable. -/

/-- A constant fragment of the month emphasis clause. -/
def monthMarker : String := "highlight guidance for"

/-- A constant fragment of the budget clause. -/
def budgetMarker : String := "Assume a daily budget"

/-- No nonempty proper prefix of M is a suffix of A: an occurrence of
M in an append cannot start inside A and continue past its end. -/
def LeftSafe (M A : List Char) : Prop :=
  ∀ k, k < M.length → 0 < k → ¬ (M.take k <:+ A)

/-- No nonempty proper suffix of M is a prefix of B: an occurrence of
M in an append cannot end inside B having started before it. -/
def RightSafe (M B : List Char) : Prop :=
  ∀ k, k < M.length → 0 < k → ¬ (M.drop k <+: B)

instance (M A : List Char) : Decidable (LeftSafe M A) :=
  inferInstanceAs (Decidable (∀ k, k < M.length → 0 < k → ¬ (M.take k <:+ A)))

instance (M B : List Char) : Decidable (RightSafe M B) :=
  inferInstanceAs (Decidable (∀ k, k < M.length → 0 < k → ¬ (M.drop k <+: B)))

/-- Digit or minus sign: the characters Python str can produce for an
int. -/
def digitOrMinus (c : Char) : Bool := c.isDigit || c == '-'

/-! ## Theorems -/

/-! ### The sanitizer -/

theorem mem_joinUnderscore : ∀ (ws : List (List Char)) (c : Char),
    c ∈ joinUnderscore ws → c = '_' ∨ ∃ w, w ∈ ws ∧ c ∈ w
  | [], c, hc => by simp [joinUnderscore] at hc
  | [w], c, hc => by
    simp only [joinUnderscore] at hc
    exact Or.inr ⟨w, by simp, hc⟩
  | w :: w2 :: ws, c, hc => by
    simp only [joinUnderscore, List.mem_append, List.mem_cons] at hc
    rcases hc with hw | hu | hrest
    · exact Or.inr ⟨w, by simp, hw⟩
    · exact Or.inl hu
    · rcases mem_joinUnderscore (w2 :: ws) c hrest with hu | ⟨w3, hw3, hcw3⟩
      · exact Or.inl hu
      · exact Or.inr ⟨w3, List.mem_cons_of_mem w hw3, hcw3⟩

theorem mem_pySplitAux : ∀ (l acc w : List Char) (c : Char),
    w ∈ pySplitAux l acc → c ∈ w → (c ∈ l ∧ isWs c = false) ∨ c ∈ acc
  | [], acc, w, c, hw, hc => by
    unfold pySplitAux at hw
    by_cases hacc : acc = []
    · rw [if_pos hacc] at hw
      simp at hw
    · rw [if_neg hacc] at hw
      simp only [List.mem_singleton] at hw
      subst hw
      exact Or.inr (List.mem_reverse.mp hc)
  | a :: l, acc, w, c, hw, hc => by
    unfold pySplitAux at hw
    by_cases ha : isWs a
    · rw [if_pos ha] at hw
      by_cases hacc : acc = []
      · rw [if_pos hacc] at hw
        rcases mem_pySplitAux l [] w c hw hc with ⟨h1, h2⟩ | h3
        · exact Or.inl ⟨List.mem_cons_of_mem a h1, h2⟩
        · simp at h3
      · rw [if_neg hacc] at hw
        rcases List.mem_cons.mp hw with hw1 | hw2
        · subst hw1
          exact Or.inr (List.mem_reverse.mp hc)
        · rcases mem_pySplitAux l [] w c hw2 hc with ⟨h1, h2⟩ | h3
          · exact Or.inl ⟨List.mem_cons_of_mem a h1, h2⟩
          · simp at h3
    · rw [if_neg ha] at hw
      rcases mem_pySplitAux l (a :: acc) w c hw hc with ⟨h1, h2⟩ | h3
      · exact Or.inl ⟨List.mem_cons_of_mem a h1, h2⟩
      · rcases List.mem_cons.mp h3 with h4 | h5
        · subst h4
          exact Or.inl ⟨List.mem_cons_self c l, by simpa using ha⟩
        · exact Or.inr h5

theorem pyStrip_subset (l : List Char) : ∀ c, c ∈ pyStrip l → c ∈ l := by
  intro c hc
  unfold pyStrip at hc
  rw [List.mem_reverse] at hc
  have h1 : c ∈ (l.dropWhile isWs).reverse :=
    List.Sublist.subset (List.dropWhile_sublist _) hc
  rw [List.mem_reverse] at h1
  exact List.Sublist.subset (List.dropWhile_sublist _) h1

theorem sanitizeChars_chars (name : List Char) (c : Char) (hc : c ∈ sanitizeChars name) :
    keepChar c = true ∧ isWs c = false := by
  simp only [sanitizeChars] at hc
  by_cases hj : joinUnderscore (pySplit (pyStrip (name.filter keepChar))) = []
  · rw [if_pos hj] at hc
    have h : ∀ c ∈ ("travel_guide").data, keepChar c = true ∧ isWs c = false := by decide
    exact h c hc
  · rw [if_neg hj] at hc
    have hc2 : c ∈ joinUnderscore (pySplit (pyStrip (name.filter keepChar))) :=
      List.take_subset _ _ hc
    rcases mem_joinUnderscore _ c hc2 with hu | ⟨w, hw, hcw⟩
    · subst hu
      exact ⟨by decide, by decide⟩
    · rcases mem_pySplitAux _ [] w c hw hcw with ⟨h1, h2⟩ | h3
      · have h4 : c ∈ name.filter keepChar := pyStrip_subset _ c h1
        exact ⟨List.of_mem_filter h4, h2⟩
      · simp at h3

theorem sanitizeChars_length (name : List Char) : (sanitizeChars name).length ≤ 100 := by
  simp only [sanitizeChars]
  by_cases hj : joinUnderscore (pySplit (pyStrip (name.filter keepChar))) = []
  · rw [if_pos hj]
    decide
  · rw [if_neg hj]
    simp [List.length_take]

theorem sanitizeChars_fallback (name : List Char) (h : ∀ c ∈ name, keepChar c = false) :
    sanitizeChars name = ("travel_guide").data := by
  have hf : name.filter keepChar = [] := by
    rw [List.filter_eq_nil_iff]
    intro c hc
    simp [h c hc]
  simp only [sanitizeChars, hf]
  rfl

/-- C2: for every destination, sanitize_filename produces only
whitelisted characters (alphanumerics, space, hyphen, underscore), no
whitespace survives (runs are collapsed to underscores), the result
has at most 100 characters, and a destination made entirely of
non-whitelisted characters (or empty) gives the constant fallback name
travel_guide. -/
theorem sanitize_filename_spec (name : String) :
    ((∀ c ∈ (sanitize_filename name).data, keepChar c = true) ∧
     (∀ c ∈ (sanitize_filename name).data, isWs c = false) ∧
     (sanitize_filename name).length ≤ 100) ∧
    ((∀ c ∈ name.data, keepChar c = false) → sanitize_filename name = "travel_guide") := by
  refine ⟨⟨?_, ?_, ?_⟩, ?_⟩
  · intro c hc
    exact (sanitizeChars_chars name.data c hc).1
  · intro c hc
    exact (sanitizeChars_chars name.data c hc).2
  · show (sanitizeChars name.data).length ≤ 100
    exact sanitizeChars_length name.data
  · intro h
    show String.mk (sanitizeChars name.data) = "travel_guide"
    rw [sanitizeChars_fallback name.data h]

/-- Witness for C2 at a concrete all-invalid destination. -/
theorem sanitize_filename_spec_wit : sanitize_filename ("!!!") = "travel_guide" :=
  (sanitize_filename_spec ("!!!")).2 (by decide)

/-- Non-ASCII alphanumerics survive the sanitizer, as in Python:
str.isalnum keeps them while the punctuation is stripped and the space
collapses to an underscore. -/
theorem sanitize_filename_sao_paulo : sanitize_filename ("São Paulo!!!") = "São_Paulo" := by
  decide

/-- A destination of Han characters is kept, not sent to the fallback
name. -/
theorem sanitize_filename_han : sanitize_filename ("日本") = "日本" := by
  decide

/-! ### Persistence -/

theorem writeFs_absorb : ∀ (fs : List (String × String)) (p c1 c2 : String),
    writeFs (writeFs fs p c1) p c2 = writeFs fs p c2
  | [], p, c1, c2 => by simp [writeFs]
  | (q, d) :: fs, p, c1, c2 => by
    by_cases h : q = p
    · simp [writeFs, h]
    · simp only [writeFs, if_neg h]
      rw [writeFs_absorb fs p c1 c2]

theorem fsGet_writeFs : ∀ (fs : List (String × String)) (p c : String),
    fsGet (writeFs fs p c) p = some c
  | [], p, c => by simp [writeFs, fsGet]
  | (q, d) :: fs, p, c => by
    by_cases h : q = p
    · simp [writeFs, h, fsGet]
    · simp only [writeFs, if_neg h, fsGet]
      exact fsGet_writeFs fs p c

theorem fsCount_eq_zero : ∀ (fs : List (String × String)) (p : String),
    p ∉ fs.map Prod.fst → fsCount fs p = 0
  | [], p, _ => by simp [fsCount]
  | (q, d) :: fs, p, h => by
    simp only [List.map_cons, List.mem_cons] at h
    push_neg at h
    simp only [fsCount, List.filter_cons]
    have hq : (q == p) = false := by
      simp only [beq_eq_false_iff_ne, ne_eq]
      exact fun hqp => h.1 hqp.symm
    rw [hq]
    exact fsCount_eq_zero fs p h.2

theorem fsCount_writeFs : ∀ (fs : List (String × String)) (p c : String),
    (fs.map Prod.fst).Nodup → fsCount (writeFs fs p c) p = 1
  | [], p, c, _ => by simp [writeFs, fsCount]
  | (q, d) :: fs, p, c, h => by
    simp only [List.map_cons, List.nodup_cons] at h
    by_cases hq : q = p
    · have h0 : fsCount fs p = 0 := fsCount_eq_zero fs p (by rw [← hq]; exact h.1)
      simp only [fsCount] at h0
      simp [writeFs, hq, fsCount, List.filter_cons, h0]
    · simp only [writeFs, if_neg hq, fsCount, List.filter_cons]
      have hq2 : (q == p) = false := by
        simp only [beq_eq_false_iff_ne, ne_eq]
        exact hq
      rw [hq2]
      exact fsCount_writeFs fs p c h.2

/-- C8: writing a report twice for the same destination (with possibly
different texts) leaves exactly one file at the derived path, whose
content is the second text: the second write absorbs the first, with
no versioning. -/
theorem save_output_markdown_idempotent (fs : List (String × String))
    (destination t1 t2 : String) (h : (fs.map Prod.fst).Nodup) :
    (save_output_markdown (save_output_markdown fs destination t1).1 destination t2).1 =
      (save_output_markdown fs destination t2).1 ∧
    fsCount (save_output_markdown (save_output_markdown fs destination t1).1 destination t2).1
      (reportPath destination) = 1 ∧
    fsGet (save_output_markdown (save_output_markdown fs destination t1).1 destination t2).1
      (reportPath destination) = some t2 := by
  simp only [save_output_markdown]
  refine ⟨writeFs_absorb fs (reportPath destination) t1 t2, ?_, ?_⟩
  · rw [writeFs_absorb fs (reportPath destination) t1 t2]
    exact fsCount_writeFs fs (reportPath destination) t2 h
  · rw [writeFs_absorb fs (reportPath destination) t1 t2]
    exact fsGet_writeFs fs (reportPath destination) t2

/-- Witness for C8 on the empty reports directory. -/
theorem save_output_markdown_idempotent_wit :
    (save_output_markdown (save_output_markdown [] ("Paris") ("one")).1 ("Paris") ("two")).1 =
      (save_output_markdown [] ("Paris") ("two")).1 ∧
    fsCount (save_output_markdown (save_output_markdown [] ("Paris") ("one")).1 ("Paris")
      ("two")).1 (reportPath ("Paris")) = 1 ∧
    fsGet (save_output_markdown (save_output_markdown [] ("Paris") ("one")).1 ("Paris")
      ("two")).1 (reportPath ("Paris")) = some ("two") :=
  save_output_markdown_idempotent [] ("Paris") ("one") ("two") (by decide)

/-! ### CLI error handling -/

/-- C5: with no usable GOOGLE_API_KEY in the environment, the CLI
prints the missing-key error to stderr and returns exit code 2; the
generator is never invoked and the reports directory is unchanged. -/
theorem cli_missing_key (env : GenEnv) (args : CliArgs) (gen : Except String String)
    (fs : List (String × String)) (h : get_env_variable env.google_api_key = none) :
    (main_run env args gen fs).exitCode = 2 ∧
    (main_run env args gen fs).stderrLines =
      ["ERROR: GOOGLE_API_KEY not set. Add it to .env or environment."] ∧
    (main_run env args gen fs).genAttempts = 0 ∧
    (main_run env args gen fs).files = fs := by
  simp [main_run, h]

/-- Witness for C5 with an empty environment. -/
theorem cli_missing_key_wit :
    (main_run ⟨none, none⟩ ⟨"Paris", 4, none, "INR", none, none⟩ (Except.ok ("guide")) []).exitCode = 2 ∧
    (main_run ⟨none, none⟩ ⟨"Paris", 4, none, "INR", none, none⟩ (Except.ok ("guide")) []).stderrLines =
      ["ERROR: GOOGLE_API_KEY not set. Add it to .env or environment."] ∧
    (main_run ⟨none, none⟩ ⟨"Paris", 4, none, "INR", none, none⟩ (Except.ok ("guide")) []).genAttempts = 0 ∧
    (main_run ⟨none, none⟩ ⟨"Paris", 4, none, "INR", none, none⟩ (Except.ok ("guide")) []).files = [] :=
  cli_missing_key ⟨none, none⟩ ⟨"Paris", 4, none, "INR", none, none⟩ (Except.ok ("guide")) []
    (by decide)

/-- C6: when the generator raises, the CLI prints a failure message
wrapping the underlying error text to stderr, returns exit code 1, and
writes no report file. -/
theorem cli_generator_failure (env : GenEnv) (args : CliArgs) (exc : String)
    (fs : List (String × String)) (k : String)
    (h : get_env_variable env.google_api_key = some k) :
    (main_run env args (Except.error exc) fs).exitCode = 1 ∧
    (main_run env args (Except.error exc) fs).stderrLines =
      ["ERROR: Failed to generate guide: " ++ exc] ∧
    (main_run env args (Except.error exc) fs).files = fs := by
  simp [main_run, h]

/-- Witness for C6 with a set key and a failing generator. -/
theorem cli_generator_failure_wit :
    (main_run ⟨some ("k"), none⟩ ⟨"Paris", 4, none, "INR", none, none⟩
      (Except.error ("boom")) []).exitCode = 1 ∧
    (main_run ⟨some ("k"), none⟩ ⟨"Paris", 4, none, "INR", none, none⟩
      (Except.error ("boom")) []).stderrLines = ["ERROR: Failed to generate guide: boom"] ∧
    (main_run ⟨some ("k"), none⟩ ⟨"Paris", 4, none, "INR", none, none⟩
      (Except.error ("boom")) []).files = [] :=
  cli_generator_failure ⟨some ("k"), none⟩ ⟨"Paris", 4, none, "INR", none, none⟩ ("boom") []
    ("k") (by decide)

/-! ### HTTP validation -/

/-- C7: a POST to /api/generate whose destination is absent (or JSON
null) or a string that is blank after stripping gets a 400 response
with ok false, and the generator is never invoked (the reports
directory is returned unchanged). -/
theorem http_blank_destination (body : List (String × JVal)) (env : GenEnv)
    (gen : Except String String) (fs : List (String × String))
    (h : jGet body ("destination") = JVal.null ∨
      ∃ s, jGet body ("destination") = JVal.str s ∧ pyStripStr s = "") :
    do_POST body env gen fs =
      some { status := 400, ok := false
             error := some ("\x27destination\x27 is required")
             markdown := none, genAttempts := 0, promptSent := none, files := fs } := by
  rcases h with h | ⟨s, h, hs⟩
  · simp [do_POST, h, pyOrStrStrip, truthy, pyStripStr, pyStrip]
  · by_cases hse : s = ""
    · subst hse
      simp [do_POST, h, pyOrStrStrip, truthy, pyStripStr, pyStrip]
    · have hts : truthy (JVal.str s) = true := by
        simp [truthy]
        exact hse
      simp [do_POST, h, pyOrStrStrip, hts, hs]

/-- Witness for C7 with a whitespace-only destination. -/
theorem http_blank_destination_wit :
    do_POST ([(("destination"), JVal.str (" "))]) ⟨some ("k"), none⟩ (Except.ok ("g")) [] =
      some { status := 400, ok := false
             error := some ("\x27destination\x27 is required")
             markdown := none, genAttempts := 0, promptSent := none, files := [] } :=
  http_blank_destination ([(("destination"), JVal.str (" "))]) ⟨some ("k"), none⟩
    (Except.ok ("g")) [] (Or.inr ⟨" ", rfl, by decide⟩)

/-! ### Numeric coercion of days and budget in the two front ends -/

/-- C1 counterexample: the token abc fails integer parsing, yet the
CLI coercion of --days does not fall back to the default 4 — argparse
aborts the invocation (modelled by none), so the two front ends do not
share fallback-on-parse-failure semantics. -/
theorem cli_no_parse_fallback_cex :
    pyIntOfString ("abc") = none ∧
    cliDaysArg (some ("abc")) ≠ some 4 ∧
    cliBudgetArg (some ("abc")) ≠ some none ∧
    httpDays ([(("days"), JVal.str ("abc"))]) = 4 ∧
    httpBudget ([(("budget"), JVal.str ("abc"))]) = none := by
  refine ⟨by decide, by decide, by decide, by decide, by decide⟩

/-- C1 amended: on integer-parse failure the HTTP handler silently
falls back (days to 4, budget to absent), while the CLI front end does
not fall back at all — argparse rejects the invocation with a usage
error, so the request fails. -/
theorem coercion_fallback_semantics :
    (∀ v : JVal, pyInt v = none →
      httpDays ([(("days"), v)]) = 4 ∧ httpBudget ([(("budget"), v)]) = none) ∧
    (∀ s : String, pyIntOfString s = none →
      cliDaysArg (some s) = none ∧ cliBudgetArg (some s) = none) := by
  constructor
  · intro v hv
    constructor
    · have hget : jGet ([(("days"), v)]) ("days") = v := by
        simp [jGet, List.lookup]
      simp only [httpDays, hget]
      by_cases ht : truthy v
      · simp [ht, hv]
      · simp only [ht, if_neg]
        simp [pyInt]
    · have hget : jGet ([(("budget"), v)]) ("budget") = v := by
        simp [jGet, List.lookup]
      cases v with
      | null => simp [httpBudget, hget]
      | bool b => simp [pyInt] at hv
      | int n => simp [pyInt] at hv
      | str s =>
        simp only [pyInt] at hv
        simp [httpBudget, hget, pyInt, hv]
      | arr l => simp [httpBudget, hget, pyInt]
      | obj l => simp [httpBudget, hget, pyInt]
  · intro s hs
    constructor
    · simp [cliDaysArg, hs]
    · simp [cliBudgetArg, hs]

/-- Witness for the amended C1 at the unparsable token abc. -/
theorem coercion_fallback_semantics_wit :
    (httpDays ([(("days"), JVal.str ("abc"))]) = 4 ∧
      httpBudget ([(("budget"), JVal.str ("abc"))]) = none) ∧
    (cliDaysArg (some ("abc")) = none ∧ cliBudgetArg (some ("abc")) = none) :=
  ⟨coercion_fallback_semantics.1 (JVal.str ("abc")) (by decide),
   coercion_fallback_semantics.2 ("abc") (by decide)⟩

/-- C10: at days equal to 0 the two front ends disagree: the handler
treats 0 as falsy and substitutes the default 4 before clamping, while
the CLI clamps 0 up to 1; the prompts they build differ accordingly. -/
theorem days_zero_divergence :
    httpDays ([(("destination"), JVal.str ("X")), (("days"), JVal.int 0)]) = 4 ∧
    cliEffectiveDays 0 = 1 ∧
    Option.map HttpOutcome.promptSent
      (do_POST ([(("destination"), JVal.str ("X")), (("days"), JVal.int 0)])
        ⟨some ("k"), none⟩ (Except.ok ("g")) []) =
      some (some (build_prompt ("X") 4 none ("INR") none)) ∧
    (main_run ⟨some ("k"), none⟩ ⟨"X", 0, none, "INR", none, none⟩
      (Except.ok ("g")) []).promptSent = some (build_prompt ("X") 1 none ("INR") none) ∧
    (4 : Int) ≠ 1 := by
  refine ⟨by decide, by decide, ?_, ?_, by decide⟩
  · rfl
  · rfl

/-! ### Substring decomposition machinery -/

theorem stringMk_data (l : List Char) : (String.mk l).data = l := rfl

/-- An infix of an append lies in the left part, in the right part, or
straddles the boundary as a nonempty suffix of the left part followed
by a nonempty prefix of the right part. -/
theorem infix_append_split {M a b : List Char} (h : M <:+: a ++ b) :
    M <:+: a ∨ M <:+: b ∨
      ∃ n₁ n₂, n₁ ++ n₂ = M ∧ n₁ ≠ [] ∧ n₂ ≠ [] ∧ n₁ <:+ a ∧ n₂ <+: b := by
  obtain ⟨s, t, hst⟩ := h
  rw [List.append_assoc] at hst
  rcases List.append_eq_append_iff.mp hst with ⟨a2, ha, hb⟩ | ⟨c2, _, hd⟩
  · rcases List.append_eq_append_iff.mp hb with ⟨x, hx1, _⟩ | ⟨y, hy1, hy2⟩
    · left
      refine ⟨s, x, ?_⟩
      rw [ha, hx1, List.append_assoc]
    · by_cases ha2 : a2 = []
      · right; left
        subst ha2
        simp only [List.nil_append] at hy1
        refine ⟨[], t, ?_⟩
        rw [hy2, ← hy1]
        simp
      · by_cases hy : y = []
        · left
          subst hy
          rw [List.append_nil] at hy1
          refine ⟨s, [], ?_⟩
          rw [ha, ← hy1]
          simp
        · right; right
          exact ⟨a2, y, hy1.symm, ha2, hy, ⟨s, ha.symm⟩, ⟨t, hy2.symm⟩⟩
  · right; left
    refine ⟨c2, t, ?_⟩
    rw [hd, List.append_assoc]

theorem not_infix_append_left {M a b : List Char} (ha : ¬ M <:+: a) (hb : ¬ M <:+: b)
    (hs : LeftSafe M a) : ¬ M <:+: a ++ b := by
  intro h
  rcases infix_append_split h with h1 | h1 | ⟨n₁, n₂, heq, hn1, hn2, hsuf, _⟩
  · exact ha h1
  · exact hb h1
  · have hp : n₁ <+: M := ⟨n₂, heq⟩
    have htake : n₁ = M.take n₁.length := List.prefix_iff_eq_take.mp hp
    have hk1 : 0 < n₁.length := List.length_pos.mpr hn1
    have hk2 : n₁.length < M.length := by
      have hlen : n₁.length + n₂.length = M.length := by
        rw [← heq, List.length_append]
      have h2 : 0 < n₂.length := List.length_pos.mpr hn2
      omega
    exact hs n₁.length hk2 hk1 (htake ▸ hsuf)

theorem not_infix_append_right {M a b : List Char} (ha : ¬ M <:+: a) (hb : ¬ M <:+: b)
    (hs : RightSafe M b) : ¬ M <:+: a ++ b := by
  intro h
  rcases infix_append_split h with h1 | h1 | ⟨n₁, n₂, heq, hn1, hn2, _, hpre⟩
  · exact ha h1
  · exact hb h1
  · have hdrop : M.drop n₁.length = n₂ := by
      rw [← heq]
      exact List.drop_left n₁ n₂
    have hk1 : 0 < n₁.length := List.length_pos.mpr hn1
    have hk2 : n₁.length < M.length := by
      have hlen : n₁.length + n₂.length = M.length := by
        rw [← heq, List.length_append]
      have h2 : 0 < n₂.length := List.length_pos.mpr hn2
      omega
    exact hs n₁.length hk2 hk1 (hdrop ▸ hpre)

/-- RightSafe extends from a head piece T to T ++ Y provided T itself
is not an infix of the marker: a short prefix of T ++ Y is a prefix of
T, and a longer one would exhibit T inside the marker. -/
theorem rightSafe_append {M T Y : List Char} (h : RightSafe M T) (hT : ¬ T <:+: M) :
    RightSafe M (T ++ Y) := by
  intro k hk hk0 hpre
  by_cases hle : (M.drop k).length ≤ T.length
  · exact h k hk hk0 (List.prefix_of_prefix_length_le hpre (List.prefix_append T Y) hle)
  · have hTp : T <+: M.drop k :=
      List.prefix_of_prefix_length_le (List.prefix_append T Y) hpre (by omega)
    exact hT (List.IsInfix.trans (List.IsPrefix.isInfix hTp)
      (List.IsSuffix.isInfix (List.drop_suffix k M)))

/-- A list whose characters all satisfy p cannot contain a marker with
a character refuting p. -/
theorem not_infix_of_chars {M A : List Char} {p : Char → Bool}
    (hA : ∀ c ∈ A, p c = true) {c₀ : Char} (hc : c₀ ∈ M) (hp : p c₀ = false) :
    ¬ M <:+: A := by
  intro h
  have hmem := hA c₀ (List.IsInfix.subset h hc)
  rw [hp] at hmem
  exact Bool.false_ne_true hmem

theorem leftSafe_of_chars {M A : List Char} {p : Char → Bool}
    (hA : ∀ c ∈ A, p c = true) (hM : ∀ c ∈ M, p c = false) : LeftSafe M A := by
  intro k hk hk0 hsuf
  have hne : M.take k ≠ [] := by
    intro hnil
    have hlen : (M.take k).length = k := by
      rw [List.length_take]
      omega
    rw [hnil] at hlen
    simp at hlen
    omega
  obtain ⟨c, hcmem⟩ := List.exists_mem_of_ne_nil _ hne
  have h1 : p c = false := hM c (List.take_subset _ _ hcmem)
  have h2 : p c = true := hA c (List.IsSuffix.subset hsuf hcmem)
  rw [h1] at h2
  exact Bool.false_ne_true h2

/-! ### The characters of Python str(int) -/

theorem digitChar_isDigit (n : Nat) : (digitChar n).isDigit = true := by
  unfold digitChar
  split <;> decide

theorem natCharsAux_digits : ∀ (fuel n : Nat), ∀ c ∈ natCharsAux fuel n, c.isDigit = true
  | 0, n => by
    intro c hc
    simp [natCharsAux] at hc
  | fuel + 1, n => by
    intro c hc
    unfold natCharsAux at hc
    by_cases h : n < 10
    · rw [if_pos h] at hc
      simp only [List.mem_singleton] at hc
      subst hc
      exact digitChar_isDigit n
    · rw [if_neg h] at hc
      rcases List.mem_append.mp hc with hc | hc
      · exact natCharsAux_digits fuel (n / 10) c hc
      · simp only [List.mem_singleton] at hc
        subst hc
        exact digitChar_isDigit _

theorem intChars_digitOrMinus (i : Int) : ∀ c ∈ intChars i, digitOrMinus c = true := by
  intro c hc
  cases i with
  | ofNat n =>
    simp only [intChars, natChars] at hc
    have h := natCharsAux_digits (n + 1) n c hc
    simp [digitOrMinus, h]
  | negSucc n =>
    simp only [intChars, natChars] at hc
    rcases List.mem_cons.mp hc with h | h
    · subst h
      decide
    · have h2 := natCharsAux_digits (n + 1 + 1) (n + 1) c h
      simp [digitOrMinus, h2]

/-! ### No marker occurrence across the whole template chain -/

/-- The full right-associated segment chain of a built prompt, with
the destination, currency, month line, budget line and days characters
abstract.  A marker M that avoids every piece and straddles no
boundary is absent from the whole prompt. -/
theorem chain_not_infix
    (M d cur ml bl ds : List Char)
    (hd : ¬ M <:+: d) (hcur : ¬ M <:+: cur) (hml : ¬ M <:+: ml) (hbl : ¬ M <:+: bl)
    (hds : ¬ M <:+: ds) (hdsL : LeftSafe M ds)
    (h0 : ¬ M <:+: seg0.data) (h0L : LeftSafe M seg0.data)
    (h1 : ¬ M <:+: seg1.data) (h1L : LeftSafe M seg1.data)
    (h1R : RightSafe M seg1.data) (h1I : ¬ seg1.data <:+: M)
    (h2 : ¬ M <:+: seg2.data) (h2L : LeftSafe M seg2.data)
    (h2R : RightSafe M seg2.data) (h2I : ¬ seg2.data <:+: M)
    (h3 : ¬ M <:+: seg3.data) (h3L : LeftSafe M seg3.data)
    (h3R : RightSafe M seg3.data) (h3I : ¬ seg3.data <:+: M)
    (h4 : ¬ M <:+: seg4.data) (h4L : LeftSafe M seg4.data)
    (hP : ¬ M <:+: segPreMonth.data) (hPL : LeftSafe M segPreMonth.data)
    (hPR : RightSafe M segPreMonth.data) (hPI : ¬ segPreMonth.data <:+: M)
    (hQ : ¬ M <:+: segPostMonth.data) (hQL : LeftSafe M segPostMonth.data)
    (hQR : RightSafe M segPostMonth.data) (hQI : ¬ segPostMonth.data <:+: M)
    (h6a : ¬ M <:+: seg6a.data) (h6aL : LeftSafe M seg6a.data)
    (h6b : ¬ M <:+: seg6b.data) (h6bL : LeftSafe M seg6b.data)
    (hE : ¬ M <:+: segEnd.data) (hER : RightSafe M segEnd.data) :
    ¬ M <:+: seg0.data ++ (d ++ (seg1.data ++ (d ++ (seg2.data ++ (cur ++ (seg3.data ++
      (ds ++ (seg4.data ++ (cur ++ (segPreMonth.data ++ (ml ++ (segPostMonth.data ++
      (ds ++ (seg6a.data ++ (seg6b.data ++ (bl ++ segEnd.data)))))))))))))))) := by
  have r1 := not_infix_append_right hbl hE hER
  have r2 := not_infix_append_left h6b r1 h6bL
  have r3 := not_infix_append_left h6a r2 h6aL
  have r4 := not_infix_append_left hds r3 hdsL
  have r5 := not_infix_append_left hQ r4 hQL
  have r6 := not_infix_append_right hml r5 (rightSafe_append hQR hQI)
  have r7 := not_infix_append_left hP r6 hPL
  have r8 := not_infix_append_right hcur r7 (rightSafe_append hPR hPI)
  have r9 := not_infix_append_left h4 r8 h4L
  have r10 := not_infix_append_left hds r9 hdsL
  have r11 := not_infix_append_left h3 r10 h3L
  have r12 := not_infix_append_right hcur r11 (rightSafe_append h3R h3I)
  have r13 := not_infix_append_left h2 r12 h2L
  have r14 := not_infix_append_right hd r13 (rightSafe_append h2R h2I)
  have r15 := not_infix_append_left h1 r14 h1L
  have r16 := not_infix_append_right hd r15 (rightSafe_append h1R h1I)
  exact not_infix_append_left h0 r16 h0L

/-- A marker avoiding the fixed clause pieces and the month value is
absent from the month line. -/
theorem not_infix_month_line {M : List Char} (mo : Option String)
    (hM : M ≠ [])
    (hmo : ∀ m, mo = some m → ¬ M <:+: m.data)
    (hm0 : ¬ M <:+: mseg0.data) (hm0L : LeftSafe M mseg0.data)
    (hm1 : ¬ M <:+: mseg1.data) (hm1R : RightSafe M mseg1.data) :
    ¬ M <:+: (specific_month_line mo).data := by
  cases mo with
  | none =>
    intro h
    rw [show (specific_month_line none).data = [] from rfl] at h
    exact hM (List.infix_nil.mp h)
  | some m =>
    by_cases hme : m = ""
    · intro h
      simp only [specific_month_line, if_pos hme] at h
      exact hM (List.infix_nil.mp h)
    · simp only [specific_month_line, if_neg hme, monthClause, String.data_append,
        List.append_assoc]
      have hr := not_infix_append_right (hmo m rfl) hm1 hm1R
      exact not_infix_append_left hm0 hr hm0L

/-- A digit-free marker avoiding the fixed clause pieces and the
currency is absent from the budget line. -/
theorem not_infix_budget_line {M : List Char} (b : Option Int) (cur : String)
    (hM : M ≠ [])
    (hcur : ¬ M <:+: cur.data)
    (hdig : ∀ c ∈ M, digitOrMinus c = false)
    (hb0 : ¬ M <:+: bseg0.data) (hb0L : LeftSafe M bseg0.data)
    (hb1 : ¬ M <:+: bseg1.data) (hb1L : LeftSafe M bseg1.data)
    (hb2 : ¬ M <:+: bseg2.data) (hb2R : RightSafe M bseg2.data) :
    ¬ M <:+: (budget_line b cur).data := by
  cases b with
  | none =>
    intro h
    rw [show (budget_line none cur).data = [] from rfl] at h
    exact hM (List.infix_nil.mp h)
  | some b =>
    simp only [budget_line, budgetClause, intStr, String.data_append, stringMk_data,
      List.append_assoc]
    obtain ⟨c₀, hc₀⟩ := List.exists_mem_of_ne_nil M hM
    have hdsI : ¬ M <:+: intChars b :=
      not_infix_of_chars (intChars_digitOrMinus b) hc₀ (hdig c₀ hc₀)
    have hdsL : LeftSafe M (intChars b) :=
      leftSafe_of_chars (intChars_digitOrMinus b) hdig
    have r1 := not_infix_append_right hcur hb2 hb2R
    have r2 := not_infix_append_left hb1 r1 hb1L
    have r3 := not_infix_append_left hdsI r2 hdsL
    exact not_infix_append_left hb0 r3 hb0L

/-- The character-list shape of a built prompt: the right-associated
chain of its segments. -/
theorem build_prompt_data (destination : String) (days : Int) (mo : Option String)
    (currency : String) (b : Option Int) :
    (build_prompt destination days mo currency b).data =
      seg0.data ++ (destination.data ++ (seg1.data ++ (destination.data ++ (seg2.data ++
        (currency.data ++ (seg3.data ++ (intChars days ++ (seg4.data ++ (currency.data ++
        (segPreMonth.data ++ ((specific_month_line mo).data ++ (segPostMonth.data ++
        (intChars days ++ (seg6a.data ++ (seg6b.data ++ ((budget_line b currency).data ++
        segEnd.data)))))))))))))))) := by
  simp only [build_prompt, seg6, intStr, String.data_append, stringMk_data, List.append_assoc]

/-- The month marker is absent from every prompt built with month
unset, provided it does not occur inside the interpolated destination
or currency. -/
theorem monthMarker_not_in_prompt (destination : String) (days : Int) (currency : String)
    (b : Option Int)
    (hd : ¬ Contains monthMarker destination) (hcur : ¬ Contains monthMarker currency) :
    ¬ Contains monthMarker (build_prompt destination days none currency b) := by
  unfold Contains at hd hcur ⊢
  rw [build_prompt_data]
  have hml : ¬ monthMarker.data <:+: (specific_month_line none).data := by
    intro h
    rw [show (specific_month_line none).data = [] from rfl] at h
    exact (by decide : monthMarker.data ≠ []) (List.infix_nil.mp h)
  have hbl : ¬ monthMarker.data <:+: (budget_line b currency).data :=
    not_infix_budget_line b currency (by decide) hcur (by decide) (by decide) (by decide)
      (by decide) (by decide) (by decide) (by decide)
  have hds : ¬ monthMarker.data <:+: intChars days :=
    not_infix_of_chars (intChars_digitOrMinus days)
      (show 'h' ∈ monthMarker.data by decide) (by decide)
  have hdsL : LeftSafe monthMarker.data (intChars days) :=
    leftSafe_of_chars (intChars_digitOrMinus days) (by decide)
  exact chain_not_infix monthMarker.data destination.data currency.data
    (specific_month_line none).data (budget_line b currency).data (intChars days)
    hd hcur hml hbl hds hdsL
    (by decide) (by decide)
    (by decide) (by decide) (by decide) (by decide)
    (by decide) (by decide) (by decide) (by decide)
    (by decide) (by decide) (by decide) (by decide)
    (by decide) (by decide)
    (by decide) (by decide) (by decide) (by decide)
    (by decide) (by decide) (by decide) (by decide)
    (by decide) (by decide)
    (by decide) (by decide)
    (by decide) (by decide)

/-- The budget marker is absent from every prompt built with budget
unset, provided it does not occur inside the interpolated destination,
currency or month. -/
theorem budgetMarker_not_in_prompt (destination : String) (days : Int) (mo : Option String)
    (currency : String)
    (hd : ¬ Contains budgetMarker destination) (hcur : ¬ Contains budgetMarker currency)
    (hmo : ∀ m, mo = some m → ¬ Contains budgetMarker m) :
    ¬ Contains budgetMarker (build_prompt destination days mo currency none) := by
  unfold Contains at hd hcur ⊢
  simp only [Contains] at hmo
  rw [build_prompt_data]
  have hml : ¬ budgetMarker.data <:+: (specific_month_line mo).data :=
    not_infix_month_line mo (by decide) hmo (by decide) (by decide) (by decide) (by decide)
  have hbl : ¬ budgetMarker.data <:+: (budget_line none currency).data := by
    intro h
    rw [show (budget_line none currency).data = [] from rfl] at h
    exact (by decide : budgetMarker.data ≠ []) (List.infix_nil.mp h)
  have hds : ¬ budgetMarker.data <:+: intChars days :=
    not_infix_of_chars (intChars_digitOrMinus days)
      (show 'A' ∈ budgetMarker.data by decide) (by decide)
  have hdsL : LeftSafe budgetMarker.data (intChars days) :=
    leftSafe_of_chars (intChars_digitOrMinus days) (by decide)
  exact chain_not_infix budgetMarker.data destination.data currency.data
    (specific_month_line mo).data (budget_line none currency).data (intChars days)
    hd hcur hml hbl hds hdsL
    (by decide) (by decide)
    (by decide) (by decide) (by decide) (by decide)
    (by decide) (by decide) (by decide) (by decide)
    (by decide) (by decide) (by decide) (by decide)
    (by decide) (by decide)
    (by decide) (by decide) (by decide) (by decide)
    (by decide) (by decide) (by decide) (by decide)
    (by decide) (by decide)
    (by decide) (by decide)
    (by decide) (by decide)

/-! ### The three prompt-content claims -/

theorem monthMarker_infix_monthClause (m : String) :
    monthMarker.data <:+: (monthClause m).data := by
  have h0 : monthMarker.data <:+: mseg0.data := by decide
  simp only [monthClause, String.data_append, List.append_assoc]
  exact List.IsInfix.trans h0 (List.IsPrefix.isInfix (List.prefix_append _ _))

theorem budgetMarker_infix_budgetClause (b : Int) (c : String) :
    budgetMarker.data <:+: (budgetClause b c).data := by
  have h0 : budgetMarker.data <+: bseg0.data := by decide
  simp only [budgetClause, String.data_append, List.append_assoc]
  exact List.IsPrefix.isInfix (List.IsPrefix.trans h0 (List.prefix_append _ _))

/-- C3: with month unset the built prompt contains no month-emphasis
clause at all (whatever month text the clause might carry), as long as
the clause marker does not occur inside the interpolated destination
or currency; with month set, the prompt contains the month text
verbatim. -/
theorem build_prompt_month_clause :
    (∀ (destination : String) (days : Int) (currency : String) (b : Option Int),
      ¬ Contains monthMarker destination → ¬ Contains monthMarker currency →
      ∀ m : String,
        ¬ Contains (monthClause m) (build_prompt destination days none currency b)) ∧
    (∀ (destination : String) (days : Int) (m : String) (currency : String) (b : Option Int),
      Contains m (build_prompt destination days (some m) currency b)) := by
  constructor
  · intro destination days currency b hd hcur m hcl
    apply monthMarker_not_in_prompt destination days currency b hd hcur
    exact List.IsInfix.trans (monthMarker_infix_monthClause m) hcl
  · intro destination days m currency b
    unfold Contains
    by_cases hme : m = ""
    · subst hme
      exact List.nil_infix
    · rw [build_prompt_data]
      refine ⟨seg0.data ++ destination.data ++ seg1.data ++ destination.data ++ seg2.data ++
        currency.data ++ seg3.data ++ intChars days ++ seg4.data ++ currency.data ++
        segPreMonth.data ++ mseg0.data,
        mseg1.data ++ (segPostMonth.data ++ (intChars days ++ (seg6a.data ++ (seg6b.data ++
          ((budget_line b currency).data ++ segEnd.data))))), ?_⟩
      simp only [specific_month_line, if_neg hme, monthClause, String.data_append,
        List.append_assoc]

/-- Witness for C3 at concrete clean inputs. -/
theorem build_prompt_month_clause_wit :
    (¬ Contains (monthClause ("May")) (build_prompt ("Paris") 4 none ("INR") none)) ∧
    Contains ("May") (build_prompt ("Paris") 4 (some ("May")) ("INR") none) :=
  ⟨build_prompt_month_clause.1 ("Paris") 4 ("INR") none (by decide) (by decide) ("May"),
   build_prompt_month_clause.2 ("Paris") 4 ("May") ("INR") none⟩

/-- C4: with budget unset the built prompt contains no budget clause
at all, as long as the clause marker does not occur inside the
interpolated destination, currency or month; with budget set (any
integer, including 0) the prompt contains the budget value and the
currency. -/
theorem build_prompt_budget_clause :
    (∀ (destination : String) (days : Int) (mo : Option String) (currency : String),
      ¬ Contains budgetMarker destination → ¬ Contains budgetMarker currency →
      (∀ m, mo = some m → ¬ Contains budgetMarker m) →
      ∀ (b : Int) (c : String),
        ¬ Contains (budgetClause b c) (build_prompt destination days mo currency none)) ∧
    (∀ (destination : String) (days : Int) (mo : Option String) (currency : String) (b : Int),
      Contains (intStr b) (build_prompt destination days mo currency (some b)) ∧
      Contains currency (build_prompt destination days mo currency (some b))) := by
  constructor
  · intro destination days mo currency hd hcur hmo b c hcl
    apply budgetMarker_not_in_prompt destination days mo currency hd hcur hmo
    exact List.IsInfix.trans (budgetMarker_infix_budgetClause b c) hcl
  · intro destination days mo currency b
    constructor
    · unfold Contains
      rw [build_prompt_data]
      refine ⟨seg0.data ++ destination.data ++ seg1.data ++ destination.data ++ seg2.data ++
        currency.data ++ seg3.data ++ intChars days ++ seg4.data ++ currency.data ++
        segPreMonth.data ++ (specific_month_line mo).data ++ segPostMonth.data ++
        intChars days ++ seg6a.data ++ seg6b.data ++ bseg0.data,
        bseg1.data ++ (currency.data ++ (bseg2.data ++ segEnd.data)), ?_⟩
      simp only [budget_line, budgetClause, intStr, String.data_append, stringMk_data,
        List.append_assoc]
    · unfold Contains
      rw [build_prompt_data]
      refine ⟨seg0.data ++ destination.data ++ seg1.data ++ destination.data ++ seg2.data,
        seg3.data ++ (intChars days ++ (seg4.data ++ (currency.data ++ (segPreMonth.data ++
          ((specific_month_line mo).data ++ (segPostMonth.data ++ (intChars days ++
          (seg6a.data ++ (seg6b.data ++ ((budget_line (some b) currency).data ++
          segEnd.data)))))))))), ?_⟩
      simp only [List.append_assoc]

/-- Witness for C4 at concrete clean inputs. -/
theorem build_prompt_budget_clause_wit :
    (¬ Contains (budgetClause 100 ("INR")) (build_prompt ("Paris") 4 none ("INR") none)) ∧
    Contains (intStr 100) (build_prompt ("Paris") 4 none ("INR") (some 100)) ∧
    Contains ("INR") (build_prompt ("Paris") 4 none ("INR") (some 100)) :=
  ⟨build_prompt_budget_clause.1 ("Paris") 4 none ("INR") (by decide) (by decide)
      (fun m hm => nomatch hm) 100 ("INR"),
   (build_prompt_budget_clause.2 ("Paris") 4 none ("INR") 100).1,
   (build_prompt_budget_clause.2 ("Paris") 4 none ("INR") 100).2⟩

theorem seg1_split : seg1.data = seg1head.data ++ rtg.data := by decide

theorem segPostMonth_split : segPostMonth.data = spHead.data ++ spItin.data := by decide

theorem seg6a_split : seg6a.data = sDays.data ++ seg6aTail.data := by decide

theorem kyotoTitle_split :
    ("Rupam\x27s Travel Guide: Kyoto").data = rtg.data ++ ("Kyoto" : String).data := by decide

theorem itin3_split :
    ("Itinerary for 3 days").data = spItin.data ++ (intChars 3 ++ sDays.data) := by decide

/-- C9: the prompt for destination Kyoto, 3 days, no month, INR, no
budget carries the title line with Kyoto, the 3-day itinerary
instruction, and no budget-assumption sentence for any value or
currency. -/
theorem kyoto_prompt_contents :
    Contains ("Rupam\x27s Travel Guide: Kyoto") (build_prompt ("Kyoto") 3 none ("INR") none) ∧
    Contains ("Itinerary for 3 days") (build_prompt ("Kyoto") 3 none ("INR") none) ∧
    (∀ (b : Int) (c : String),
      ¬ Contains (budgetClause b c) (build_prompt ("Kyoto") 3 none ("INR") none)) := by
  refine ⟨?_, ?_, ?_⟩
  · unfold Contains
    rw [build_prompt_data, kyotoTitle_split]
    refine ⟨seg0.data ++ ("Kyoto" : String).data ++ seg1head.data,
      seg2.data ++ (("INR" : String).data ++ (seg3.data ++ (intChars 3 ++ (seg4.data ++
        (("INR" : String).data ++ (segPreMonth.data ++ ((specific_month_line none).data ++
        (segPostMonth.data ++ (intChars 3 ++ (seg6a.data ++ (seg6b.data ++
        ((budget_line none ("INR")).data ++ segEnd.data)))))))))))), ?_⟩
    rw [seg1_split]
    simp only [List.append_assoc]
  · unfold Contains
    rw [build_prompt_data, itin3_split]
    refine ⟨seg0.data ++ ("Kyoto" : String).data ++ seg1.data ++ ("Kyoto" : String).data ++
      seg2.data ++ ("INR" : String).data ++ seg3.data ++ intChars 3 ++ seg4.data ++
      ("INR" : String).data ++ segPreMonth.data ++ (specific_month_line none).data ++
      spHead.data,
      seg6aTail.data ++ (seg6b.data ++ ((budget_line none ("INR")).data ++ segEnd.data)), ?_⟩
    rw [segPostMonth_split, seg6a_split]
    simp only [List.append_assoc]
  · intro b c hcl
    apply budgetMarker_not_in_prompt ("Kyoto") 3 none ("INR") (by decide) (by decide)
      (fun m hm => nomatch hm)
    exact List.IsInfix.trans (budgetMarker_infix_budgetClause b c) hcl
